import Mathlib

/-!
Verification development for the BriteTalent job-description backend
(`src/app.py` and `src/config/briteroles_config.py`).

The Flask handlers and helpers are shallowly embedded as pure Lean
functions.  JSON values are modelled by the inductive `J`; HTTP responses
by `HttpResp` (status code plus JSON body).  The Google-Cloud-Storage
bucket is modelled as an association list from blob names to the parsed
JSON content of the blob (`Store`).  The Anthropic client and the GCS
client are modelled by availability flags (`claudeAvailable`,
`gcsAvailable`), matching the `if not claude_client:` / `if not
gcs_client:` checks in the source.  Python string operations used by the
code (`str.strip`, `str.lower`, `re.sub`, `str.split`, `str.replace`,
slicing) are modelled character-exactly on ASCII data; Unicode-only
behaviours (e.g. exotic whitespace classes in `str.strip`) are outside
every property below.
-/

/-- JSON values, as produced by `jsonify` / parsed by `json.loads`. -/
inductive J where
  | null : J
  | bool : Bool → J
  | num : Int → J
  | str : String → J
  | arr : List J → J
  | obj : List (String × J) → J
deriving Repr

/-- An HTTP response: status code and JSON body.  Flask's bare
`jsonify(...)` returns status 200. -/
structure HttpResp where
  status : Nat
  body : J
deriving Repr

/-- Python `str.strip()` whitespace test, restricted to the ASCII
whitespace characters (space, tab, newline, carriage return, vertical
tab, form feed). -/
def isPySpace (c : Char) : Bool :=
  c = ' ' || c = '\t' || c = '\n' || c = '\r' || c = '\x0b' || c = '\x0c'

/-- Drop a matching suffix: the mirror image of `List.dropWhile`. -/
def dropEndWhile (p : Char → Bool) (l : List Char) : List Char :=
  (l.reverse.dropWhile p).reverse

/-- Python `str.strip()` on the character list. -/
def pyStripL (l : List Char) : List Char :=
  dropEndWhile isPySpace (l.dropWhile isPySpace)

/-- Python `str.strip()`. -/
def pyStrip (s : String) : String :=
  ⟨pyStripL s.data⟩

/-- Python `a or b` for strings: `b` when `a` is the empty string
(falsy), otherwise `a`.  Used for the optional-field defaults, e.g.
`department or "Not specified"`. -/
def pyOr (a b : String) : String :=
  if a = "" then b else a

/-- The remote/hybrid work-type line built identically in `generate_jd`
(src/app.py lines 277-283) and `adapt_jd` (lines 347-353):
`is_remote` wins over `is_hybrid`; neither flag gives the empty
string. -/
def remoteLine (is_remote is_hybrid : Bool) : String :=
  if is_remote then "- Work Type: Fully Remote\n"
  else if is_hybrid then "- Work Type: Hybrid (remote + in-office)\n"
  else ""

/-- One segment of a Python format template: literal text or a
`\x7bname\x7d` placeholder. -/
inductive Tmpl where
  | lit : String → Tmpl
  | var : String → Tmpl

/-- Python `str.format(**fields)` over a segmented template: substitute
every placeholder from the field list; an unbound placeholder raises
`KeyError`, modelled as `none`. -/
def pythonFormat : List Tmpl → List (String × String) → Option String
  | [], _ => some ""
  | Tmpl.lit s :: rest, fields => (pythonFormat rest fields).map (fun r => s ++ r)
  | Tmpl.var v :: rest, fields =>
    match fields.lookup v, pythonFormat rest fields with
    | some value, some r => some (value ++ r)
    | _, _ => none

/-- Constant `BRITEROLES_SYSTEM_PROMPT` from src/config/briteroles_config.py. -/
def BRITEROLES_SYSTEM_PROMPT : String :=
  "You are a professional job description writer for BriteCo, an insurtech company " ++
  "that provides insurance for jewelry, watches, weddings, and special events.\n\n" ++
  "ABOUT BRITECO:\n" ++
  "BriteCo specializes in innovative and comprehensive insurance solutions for " ++
  "jewelry, watches, weddings, and special events. Backed by an AM Best A+ rated " ++
  "carrier, we offer up to 125% of appraised value with $0 deductibles. We also " ++
  "provide wedding and event insurance. Based in Evanston, IL.\n\n" ++
  "VOICE & TONE:\n" ++
  "- Professional but warm — not corporate-generic\n" ++
  "- Reflects a modern, innovative tech company\n" ++
  "- Inclusive and welcoming language\n" ++
  "- Enthusiastic about the role without being over-the-top\n" ++
  "- Specific and concrete — avoid vague buzzwords\n\n" ++
  "AVOID:\n" ++
  "- Generic corporate boilerplate that could apply to any company\n" ++
  "- Overly long lists of requirements (keep it focused)\n" ++
  "- Gendered language or exclusive terminology\n" ++
  "- \x27Rock star\x27, \x27ninja\x27, \x27guru\x27 or similar cringe terms\n" ++
  "- Unrealistic combination of requirements\n" ++
  "- Words like \x27leverage\x27, \x27synergy\x27, \x27paradigm\x27, \x27spearhead\x27"

/-- Template `AI_PROMPTS["generate_jd"]` from src/config/briteroles_config.py,
segmented at its placeholders. -/
def generate_jd_prompt : List Tmpl :=
  [Tmpl.lit ("Write a complete job description for the following role at BriteCo.\n\n" ++
     "ROLE DETAILS:\n- Title: "),
   Tmpl.var "title",
   Tmpl.lit "\n- Department: ",
   Tmpl.var "department",
   Tmpl.lit "\n- Reports To: ",
   Tmpl.var "reports_to",
   Tmpl.lit "\n- Location: ",
   Tmpl.var "location",
   Tmpl.lit "\n- Experience Level: ",
   Tmpl.var "experience_level",
   Tmpl.lit "\n",
   Tmpl.var "remote_line",
   Tmpl.lit "\nUSER\x27S NOTES ABOUT THE ROLE:\n",
   Tmpl.var "notes",
   Tmpl.lit ("\n\nGenerate the following sections in this exact order:\n\n" ++
     "## Role Description\n" ++
     "A paragraph describing the role, what they\x27ll do day-to-day, and how it fits " ++
     "at BriteCo. Mention if it\x27s hybrid/remote. 3-5 sentences.\n\n" ++
     "## Key Responsibilities\n" ++
     "6-10 bullet points of key responsibilities. Group under sub-headers if the role " ++
     "spans multiple areas (e.g., \x27B2B Demand Generation\x27, \x27D2C Growth Support\x27).\n\n" ++
     "## Qualifications\n" ++
     "5-8 bullet points of required qualifications and experience.\n\n" ++
     "IMPORTANT:\n" ++
     "- Base the content on the user\x27s notes — expand and polish, don\x27t ignore them\n" ++
     "- Make responsibilities specific to BriteCo and this role, not generic\n" ++
     "- Keep requirements realistic for the experience level\n" ++
     "- Use \x27you\x27 and \x27we\x27 language where natural\n" ++
     "- Return in markdown format with ## section headers\n" ++
     "- Do NOT include Company Description or Compensation — those are added separately\n\n" ++
     "EXAMPLES OF PAST BRITECO JOB DESCRIPTIONS (match this voice and specificity):\n\n" ++
     "---\n" ++
     "Example 1 (Customer Service Representative, hybrid in Evanston, IL):\n\n" ++
     "Role Description:\n" ++
     "This is a full-time hybrid role for a Customer Service Representative. Based in " ++
     "Evanston, IL, the role allows for some flexibility to work from home. As a Customer " ++
     "Service Representative, you will interact with customers to address inquiries, " ++
     "resolve concerns, ensure satisfaction, and optimize customer experience. You will be " ++
     "responsible for handling communication through various channels and providing " ++
     "meticulous assistance while maintaining a customer-first approach.\n\n" ++
     "Qualifications:\n" ++
     "- Proven ability to deliver exceptional Customer Service, ensuring quality Customer " ++
     "Experience and fostering Customer Satisfaction\n" ++
     "- Proficiency in Customer Support and working with clients to resolve issues promptly\n" ++
     "- Strong communication skills and the ability to engage with customers professionally\n" ++
     "- Problem-solving skills with a focus on achieving solutions collaboratively\n" ++
     "- Familiarity with customer service tools and technology\n" ++
     "- Ability to work both independently and collaboratively in a hybrid environment\n" ++
     "- An empathetic, patient, and proactive attitude when addressing customer needs\n" ++
     "- College degree required\n\n" ++
     "---\n" ++
     "Example 2 (Senior Demand Generation & Growth Marketing, with sub-headers):\n\n" ++
     "Role Overview:\n" ++
     "We\x27re hiring a senior Demand Generation & Growth Marketing leader to help scale " ++
     "pipeline and revenue across multiple B2B channels while also supporting D2C growth " ++
     "initiatives and new product launches. You\x27ll operate as a cross-functional " ++
     "\"quarterback\" alongside Sales, Sales Ops, and Marketing, ensuring programs are " ++
     "planned well, executed reliably, and measured clearly.\n\n" ++
     "Key Responsibilities:\n" ++
     "B2B Demand Generation (Primary)\n" ++
     "- Own and scale pipeline programs across multiple B2B channels\n" ++
     "- Manage and evolve ABM campaigns and lead-generation initiatives\n" ++
     "- Partner with Sales leadership to align campaign strategy to pipeline goals\n\n" ++
     "D2C Growth and New Product Launch Support\n" ++
     "- Support D2C marketing initiatives by improving conversion performance\n" ++
     "- Partner with marketing and product teams on new product launches\n\n" ++
     "Qualifications:\n" ++
     "- 5-10 years of experience in demand generation or growth marketing\n" ++
     "- Strong B2B demand generation experience\n" ++
     "- Proven ability to build funnel infrastructure: lifecycle stages, routing, scoring\n" ++
     "- Strong project management and cross-functional leadership skills\n" ++
     "---")]

/-- Template `AI_PROMPTS["adapt_jd"]` from src/config/briteroles_config.py,
segmented at its placeholders. -/
def adapt_jd_prompt : List Tmpl :=
  [Tmpl.lit ("You have been given an existing job description from another company or source. " ++
     "Rewrite it to match BriteCo\x27s voice, tone, and style.\n\n" ++
     "ORIGINAL JD:\n"),
   Tmpl.var "original_jd",
   Tmpl.lit "\n\nROLE DETAILS:\n- Title: ",
   Tmpl.var "title",
   Tmpl.lit "\n- Department: ",
   Tmpl.var "department",
   Tmpl.lit "\n- Reports To: ",
   Tmpl.var "reports_to",
   Tmpl.lit "\n- Location: ",
   Tmpl.var "location",
   Tmpl.lit "\n- Experience Level: ",
   Tmpl.var "experience_level",
   Tmpl.lit "\n",
   Tmpl.var "remote_line",
   Tmpl.lit "\nADDITIONAL NOTES FROM HIRING MANAGER:\n",
   Tmpl.var "notes",
   Tmpl.lit ("\n\nINSTRUCTIONS:\n" ++
     "- Rewrite this JD in BriteCo\x27s voice (professional but warm, specific, modern)\n" ++
     "- Adapt the responsibilities and qualifications to be BriteCo-specific\n" ++
     "- Keep the same general scope but make it feel like it was written for BriteCo\n" ++
     "- If the original has good content, preserve the substance while improving the voice\n" ++
     "- Use the hiring manager\x27s notes to adjust emphasis or add missing elements\n" ++
     "- Return in markdown format with ## section headers\n" ++
     "- Do NOT include Company Description or Compensation — those are added separately\n\n" ++
     "Generate the following sections in this exact order:\n\n" ++
     "## Role Description\n" ++
     "A paragraph describing the role at BriteCo. 3-5 sentences.\n\n" ++
     "## Key Responsibilities\n" ++
     "6-10 bullet points. Group under sub-headers if the role spans multiple areas.\n\n" ++
     "## Qualifications\n" ++
     "5-8 bullet points of required qualifications and experience.\n")]

/-- Template `AI_PROMPTS["rewrite_section"]` from src/config/briteroles_config.py,
segmented at its placeholders. -/
def rewrite_section_prompt : List Tmpl :=
  [Tmpl.lit "Rewrite the following section of a job description. Adjust the tone to be more ",
   Tmpl.var "tone",
   Tmpl.lit ".\n\nOriginal:\n",
   Tmpl.var "content",
   Tmpl.lit ("\n\nRequirements:\n" ++
     "- Maintain the same information and structure\n" ++
     "- Improve clarity and BriteCo brand voice\n" ++
     "- Keep the same approximate length\n" ++
     "- Return ONLY the rewritten text, no extra labels or headers")]

/-- Request body for POST /api/generate-jd.  Each field holds the value
of `data.get(key, default)` from src/app.py lines 264-271 (a missing
string key and the empty string coincide there, since the default is
`""`). -/
structure RoleReq where
  title : String
  department : String
  reports_to : String
  location : String
  experience_level : String
  is_remote : Bool
  is_hybrid : Bool
  notes : String

/-- Request body for POST /api/adapt-jd (src/app.py lines 333-341). -/
structure AdaptReq where
  original_jd : String
  title : String
  department : String
  reports_to : String
  location : String
  experience_level : String
  is_remote : Bool
  is_hybrid : Bool
  notes : String

/-- Request body for POST /api/rewrite-section (src/app.py
lines 403-404). -/
structure RewriteReq where
  content : String
  tone : String

/-- Outcome of a generation handler up to the point where it would call
the Claude client: either an early JSON response, or the call to
`claude_client.generate_content` with the formatted prompt, the system
prompt and `max_tokens` (the constant `temperature=0.6` is a float and
is not modelled).  `raised` marks an impossible `str.format` KeyError
escaping the handler. -/
inductive GenStep where
  | early : HttpResp → GenStep
  | callClient : String → String → Nat → GenStep
  | raised : GenStep

/-- The keyword arguments of `AI_PROMPTS["generate_jd"].format(...)` in
src/app.py lines 286-294, with their `or`-defaults. -/
def genFields (title department reports_to location experience_level
    remote_line notes : String) : List (String × String) :=
  [("title", title),
   ("department", pyOr department "Not specified"),
   ("reports_to", pyOr reports_to "Not specified"),
   ("location", pyOr location "Not specified"),
   ("experience_level", pyOr experience_level "Not specified"),
   ("remote_line", remote_line),
   ("notes", pyOr notes "No additional notes provided.")]

/-- The keyword arguments of `AI_PROMPTS["adapt_jd"].format(...)` in
src/app.py lines 355-364, with their `or`-defaults.  Note the notes
default here is "No additional notes." (line 363), unlike
`generate_jd`. -/
def adaptFields (original_jd title department reports_to location
    experience_level remote_line notes : String) : List (String × String) :=
  [("original_jd", original_jd),
   ("title", title),
   ("department", pyOr department "Not specified"),
   ("reports_to", pyOr reports_to "Not specified"),
   ("location", pyOr location "Not specified"),
   ("experience_level", pyOr experience_level "Not specified"),
   ("remote_line", remote_line),
   ("notes", pyOr notes "No additional notes.")]

/-- The keyword arguments of `AI_PROMPTS["rewrite_section"].format(...)`
in src/app.py lines 412-415. -/
def rewriteFields (content tone : String) : List (String × String) :=
  [("content", content), ("tone", tone)]

/-- Handler for POST /api/generate-jd (src/app.py lines 253-306), up to
the Claude call.  `claudeAvailable` models `claude_client` being
non-None; `body = none` models a missing/unparseable JSON body. -/
def generate_jd (claudeAvailable : Bool) (body : Option RoleReq) : GenStep :=
  if !claudeAvailable then
    GenStep.early ⟨503, J.obj [("error", J.str "Claude AI is not available. Check ANTHROPIC_API_KEY.")]⟩
  else match body with
  | none => GenStep.early ⟨400, J.obj [("error", J.str "Request body is required")]⟩
  | some data =>
    let title := pyStrip data.title
    let department := pyStrip data.department
    let reports_to := pyStrip data.reports_to
    let location := pyStrip data.location
    let experience_level := pyStrip data.experience_level
    let notes := pyStrip data.notes
    if title = "" then
      GenStep.early ⟨400, J.obj [("error", J.str "Job title is required")]⟩
    else
      let remote_line := remoteLine data.is_remote data.is_hybrid
      match pythonFormat generate_jd_prompt
          (genFields title department reports_to location experience_level
            remote_line notes) with
      | none => GenStep.raised
      | some prompt => GenStep.callClient prompt BRITEROLES_SYSTEM_PROMPT 1500

/-- Handler for POST /api/adapt-jd (src/app.py lines 323-376), up to the
Claude call. -/
def adapt_jd (claudeAvailable : Bool) (body : Option AdaptReq) : GenStep :=
  if !claudeAvailable then
    GenStep.early ⟨503, J.obj [("error", J.str "Claude AI is not available. Check ANTHROPIC_API_KEY.")]⟩
  else match body with
  | none => GenStep.early ⟨400, J.obj [("error", J.str "Request body is required")]⟩
  | some data =>
    let original_jd := pyStrip data.original_jd
    let title := pyStrip data.title
    let department := pyStrip data.department
    let reports_to := pyStrip data.reports_to
    let location := pyStrip data.location
    let experience_level := pyStrip data.experience_level
    let notes := pyStrip data.notes
    if original_jd = "" then
      GenStep.early ⟨400, J.obj [("error", J.str "Original job description is required")]⟩
    else if title = "" then
      GenStep.early ⟨400, J.obj [("error", J.str "Job title is required")]⟩
    else
      let remote_line := remoteLine data.is_remote data.is_hybrid
      match pythonFormat adapt_jd_prompt
          (adaptFields original_jd title department reports_to location
            experience_level remote_line notes) with
      | none => GenStep.raised
      | some prompt => GenStep.callClient prompt BRITEROLES_SYSTEM_PROMPT 1500

/-- Handler for POST /api/rewrite-section (src/app.py lines 393-427), up
to the Claude call. -/
def rewrite_section (claudeAvailable : Bool) (body : Option RewriteReq) : GenStep :=
  if !claudeAvailable then
    GenStep.early ⟨503, J.obj [("error", J.str "Claude AI is not available. Check ANTHROPIC_API_KEY.")]⟩
  else match body with
  | none => GenStep.early ⟨400, J.obj [("error", J.str "Request body is required")]⟩
  | some data =>
    let content := pyStrip data.content
    let tone := pyStrip data.tone
    if content = "" then
      GenStep.early ⟨400, J.obj [("error", J.str "Content is required")]⟩
    else if tone = "" then
      GenStep.early ⟨400, J.obj [("error", J.str "Tone is required")]⟩
    else
      match pythonFormat rewrite_section_prompt (rewriteFields content tone) with
      | none => GenStep.raised
      | some prompt => GenStep.callClient prompt BRITEROLES_SYSTEM_PROMPT 1000

/-- Claim C1: for both POST /api/generate-jd and POST /api/adapt-jd
(which build the line by the same code, embedded as `remoteLine`), the
derived work-type line is "- Work Type: Fully Remote\n" whenever
`is_remote` is set, regardless of `is_hybrid`; it is
"- Work Type: Hybrid (remote + in-office)\n" when only `is_hybrid` is
set; and it is empty when neither is set — so `is_remote` takes
precedence and at most one line is emitted. -/
theorem c1_remote_line_cases :
    (∀ is_hybrid : Bool, remoteLine true is_hybrid = "- Work Type: Fully Remote\n") ∧
    remoteLine false true = "- Work Type: Hybrid (remote + in-office)\n" ∧
    remoteLine false false = "" :=
  ⟨fun _ => rfl, rfl, rfl⟩

/-- Claim C4: when the Claude client is unavailable, each of the three
generation endpoints answers 503 with the fixed error body for every
request body whatsoever (including an absent body), since the
availability check precedes body parsing and validation. -/
theorem c4_unavailable_503 :
    (∀ body : Option RoleReq, generate_jd false body =
      GenStep.early ⟨503, J.obj [("error", J.str "Claude AI is not available. Check ANTHROPIC_API_KEY.")]⟩) ∧
    (∀ body : Option AdaptReq, adapt_jd false body =
      GenStep.early ⟨503, J.obj [("error", J.str "Claude AI is not available. Check ANTHROPIC_API_KEY.")]⟩) ∧
    (∀ body : Option RewriteReq, rewrite_section false body =
      GenStep.early ⟨503, J.obj [("error", J.str "Claude AI is not available. Check ANTHROPIC_API_KEY.")]⟩) :=
  ⟨fun _ => rfl, fun _ => rfl, fun _ => rfl⟩

/-- Claim C3: a required field blank after trimming makes the endpoint
answer 400 with an error message naming that field, and the handler
returns this early response rather than a `GenStep.callClient`, so the
Claude client is never invoked.  For adapt, `original_jd` is checked
before `title`. -/
theorem c3_missing_required_400 :
    (∀ data : RoleReq, pyStrip data.title = "" →
      generate_jd true (some data) =
        GenStep.early ⟨400, J.obj [("error", J.str "Job title is required")]⟩) ∧
    (∀ data : AdaptReq, pyStrip data.original_jd = "" →
      adapt_jd true (some data) =
        GenStep.early ⟨400, J.obj [("error", J.str "Original job description is required")]⟩) ∧
    (∀ data : AdaptReq, pyStrip data.original_jd ≠ "" → pyStrip data.title = "" →
      adapt_jd true (some data) =
        GenStep.early ⟨400, J.obj [("error", J.str "Job title is required")]⟩) ∧
    (∀ data : RewriteReq, pyStrip data.content = "" →
      rewrite_section true (some data) =
        GenStep.early ⟨400, J.obj [("error", J.str "Content is required")]⟩) ∧
    (∀ data : RewriteReq, pyStrip data.content ≠ "" → pyStrip data.tone = "" →
      rewrite_section true (some data) =
        GenStep.early ⟨400, J.obj [("error", J.str "Tone is required")]⟩) := by
  refine ⟨fun data h => ?_, fun data h => ?_, fun data h1 h2 => ?_,
    fun data h => ?_, fun data h1 h2 => ?_⟩
  · simp [generate_jd, h]
  · simp [adapt_jd, h]
  · simp [adapt_jd, h1, h2]
  · simp [rewrite_section, h]
  · simp [rewrite_section, h1, h2]

/-- Witness for C3 at concrete inputs: a blank title (after trimming
"  ") yields the 400 response on generate; blank original_jd, blank
title, blank content and blank tone each yield their named 400 on adapt
and rewrite. -/
theorem c3_missing_required_400_witness :
    generate_jd true (some ⟨"  ", "Eng", "", "", "", false, false, ""⟩) =
      GenStep.early ⟨400, J.obj [("error", J.str "Job title is required")]⟩ ∧
    adapt_jd true (some ⟨"", "Engineer", "", "", "", "", false, false, ""⟩) =
      GenStep.early ⟨400, J.obj [("error", J.str "Original job description is required")]⟩ ∧
    adapt_jd true (some ⟨"some jd", "", "", "", "", "", false, false, ""⟩) =
      GenStep.early ⟨400, J.obj [("error", J.str "Job title is required")]⟩ ∧
    rewrite_section true (some ⟨"", "formal"⟩) =
      GenStep.early ⟨400, J.obj [("error", J.str "Content is required")]⟩ ∧
    rewrite_section true (some ⟨"text", " "⟩) =
      GenStep.early ⟨400, J.obj [("error", J.str "Tone is required")]⟩ :=
  ⟨c3_missing_required_400.1 _ (by decide),
   c3_missing_required_400.2.1 _ (by decide),
   c3_missing_required_400.2.2.1 _ (by decide) (by decide),
   c3_missing_required_400.2.2.2.1 _ (by decide),
   c3_missing_required_400.2.2.2.2 _ (by decide) (by decide)⟩

/-- Claim C5 (amended): with the required fields present and every
optional field empty, prompt formatting is total — `str.format` finds a
binding for every placeholder (no KeyError, nothing left
unsubstituted) — and each empty optional field is bound to its default:
"Not specified" for department, reports_to, location and
experience_level on both endpoints, "No additional notes provided." for
notes on generate, and "No additional notes." for notes on adapt
(src/app.py line 363). -/
theorem c5_defaults_and_total_formatting :
    (∀ (title : String) (r h : Bool),
      (genFields title "" "" "" "" (remoteLine r h) "").lookup "department" = some "Not specified" ∧
      (genFields title "" "" "" "" (remoteLine r h) "").lookup "reports_to" = some "Not specified" ∧
      (genFields title "" "" "" "" (remoteLine r h) "").lookup "location" = some "Not specified" ∧
      (genFields title "" "" "" "" (remoteLine r h) "").lookup "experience_level" = some "Not specified" ∧
      (genFields title "" "" "" "" (remoteLine r h) "").lookup "notes" = some "No additional notes provided." ∧
      (pythonFormat generate_jd_prompt (genFields title "" "" "" "" (remoteLine r h) "")).isSome = true) ∧
    (∀ (original_jd title : String) (r h : Bool),
      (adaptFields original_jd title "" "" "" "" (remoteLine r h) "").lookup "department" = some "Not specified" ∧
      (adaptFields original_jd title "" "" "" "" (remoteLine r h) "").lookup "reports_to" = some "Not specified" ∧
      (adaptFields original_jd title "" "" "" "" (remoteLine r h) "").lookup "location" = some "Not specified" ∧
      (adaptFields original_jd title "" "" "" "" (remoteLine r h) "").lookup "experience_level" = some "Not specified" ∧
      (adaptFields original_jd title "" "" "" "" (remoteLine r h) "").lookup "notes" = some "No additional notes." ∧
      (pythonFormat adapt_jd_prompt (adaptFields original_jd title "" "" "" "" (remoteLine r h) "")).isSome = true) :=
  ⟨fun _ _ _ => ⟨rfl, rfl, rfl, rfl, rfl, rfl⟩,
   fun _ _ _ _ => ⟨rfl, rfl, rfl, rfl, rfl, rfl⟩⟩

/-- Counterexample to C5 as stated: in `adapt_jd`, the empty notes field
is bound to "No additional notes." (src/app.py line 363), not to the
"No additional notes provided." default that the claim asserts for
notes. -/
theorem c5_counterexample_adapt_notes_default :
    (adaptFields "some jd" "Engineer" "" "" "" "" "" "").lookup "notes" =
      some "No additional notes." ∧
    ("No additional notes." : String) ≠ "No additional notes provided." :=
  ⟨rfl, by decide⟩

/-- Lowercase ASCII letter or digit: exactly the character class
`[a-z0-9]` of the regex in `_slugify` (src/app.py line 451). -/
def isAlnumLower (c : Char) : Bool :=
  ('a' ≤ c && c ≤ 'z') || ('0' ≤ c && c ≤ '9')

/-- Python `str.lower()` on one character (ASCII case mapping). -/
def pyLowerChar (c : Char) : Char :=
  if 'A' ≤ c && c ≤ 'Z' then Char.ofNat (c.toNat + 32) else c

/-- Regex substitution `re.sub(r"[^a-z0-9]+", "-", s)`: each maximal run of characters
outside `[a-z0-9]` becomes a single hyphen.  The flag records whether we
are inside such a run (its hyphen already emitted). -/
def collapseAux : Bool → List Char → List Char
  | _, [] => []
  | inRun, c :: cs =>
    if isAlnumLower c then c :: collapseAux false cs
    else if inRun then collapseAux true cs
    else '-' :: collapseAux true cs

/-- Function `_slugify` from src/app.py lines 448-452 on the character list:
`text.lower().strip()`, then the regex substitution, then
`.strip("-")[:60]`. -/
def slugifyL (l : List Char) : List Char :=
  (dropEndWhile (fun c => c = '-')
      ((collapseAux false (pyStripL (l.map pyLowerChar))).dropWhile
        (fun c => c = '-'))).take 60

/-- Function `_slugify` from src/app.py lines 448-452. -/
def _slugify (s : String) : String :=
  ⟨slugifyL s.data⟩

/-- A 61-character input on which `_slugify` truncates right after a
hyphen: 59 letters a, then "!b". -/
def c2Bad : String :=
  "aaaaaaaaaaaaaaaaaaaaaaaaaaaaaaaaaaaaaaaaaaaaaaaaaaaaaaaaaaa!b"

/-- Counterexample to C2 as stated: on `c2Bad` the slug is 59 letters a
followed by a hyphen — the 60-character truncation happens after the
hyphen trim, so the slug ends in a hyphen, and `_slugify` is not
idempotent there (re-slugifying drops the trailing hyphen). -/
theorem c2_counterexample_trailing_hyphen :
    (_slugify c2Bad).data.getLast? = some '-' ∧
    _slugify (_slugify c2Bad) ≠ _slugify c2Bad := by
  decide

/-- Every character of the regex substitution output is a lowercase
alphanumeric (kept from the input) or the replacement hyphen. -/
theorem mem_collapseAux {c : Char} :
    ∀ (b : Bool) (l : List Char), c ∈ collapseAux b l →
      isAlnumLower c = true ∨ c = '-' := by
  intro b l
  induction l generalizing b with
  | nil => intro h; simp [collapseAux] at h
  | cons x xs ih =>
    intro h
    by_cases hx : isAlnumLower x
    · rw [collapseAux, if_pos hx] at h
      rcases List.mem_cons.mp h with h | h
      · exact Or.inl (h ▸ hx)
      · exact ih false h
    · rw [collapseAux, if_neg hx] at h
      cases b with
      | true => exact ih true (by simpa using h)
      | false =>
        rcases List.mem_cons.mp (by simpa using h) with h | h
        · exact Or.inr h
        · exact ih true h

/-- No two adjacent hyphens, as a relation for `List.Chain'`. -/
def noDD (a b : Char) : Prop := ¬(a = '-' ∧ b = '-')

/-- The regex substitution output never contains two adjacent hyphens,
and with the in-run flag set it never starts with a hyphen. -/
theorem chain'_collapseAux : ∀ l : List Char,
    List.Chain' noDD (collapseAux false l) ∧
    List.Chain' noDD (collapseAux true l) ∧
    (∀ c, (collapseAux true l).head? = some c → c ≠ '-') := by
  intro l
  induction l with
  | nil => exact ⟨List.chain'_nil, List.chain'_nil, by simp [collapseAux]⟩
  | cons x xs ih =>
    by_cases hx : isAlnumLower x
    · have hxd : x ≠ '-' := by
        intro heq; rw [heq] at hx; exact absurd hx (by decide)
      have hcons : List.Chain' noDD (x :: collapseAux false xs) :=
        List.chain'_cons'.mpr ⟨fun _ _ => fun hand => hxd hand.1, ih.1⟩
      refine ⟨?_, ?_, ?_⟩
      · rw [collapseAux, if_pos hx]; exact hcons
      · rw [collapseAux, if_pos hx]; exact hcons
      · rw [collapseAux, if_pos hx]
        intro c hc
        simp only [List.head?_cons, Option.some.injEq] at hc
        exact hc ▸ hxd
    · have hred_false : collapseAux false (x :: xs) = '-' :: collapseAux true xs := by
        rw [collapseAux, if_neg hx]
        rfl
      have hred_true : collapseAux true (x :: xs) = collapseAux true xs := by
        rw [collapseAux, if_neg hx]
        rfl
      refine ⟨?_, ?_, ?_⟩
      · rw [hred_false]
        exact List.chain'_cons'.mpr
          ⟨fun y hy => fun hand => ih.2.2 y hy hand.2, ih.2.1⟩
      · rw [hred_true]
        exact ih.2.1
      · rw [hred_true]
        exact ih.2.2

/-- On a list whose characters are lowercase alphanumerics or isolated
hyphens, the regex substitution is the identity. -/
theorem collapseAux_eq_self : ∀ l : List Char,
    (∀ c ∈ l, isAlnumLower c = true ∨ c = '-') →
    List.Chain' noDD l →
    collapseAux false l = l ∧ (l.head? ≠ some '-' → collapseAux true l = l) := by
  intro l
  induction l with
  | nil => intro _ _; exact ⟨rfl, fun _ => rfl⟩
  | cons x xs ih =>
    intro hchars hch
    obtain ⟨hhead, htail⟩ := List.chain'_cons'.mp hch
    have ihxs := ih (fun c hc => hchars c (List.mem_cons_of_mem x hc)) htail
    rcases hchars x (List.mem_cons_self x xs) with hx | hx
    · constructor
      · rw [collapseAux, if_pos hx, ihxs.1]
      · intro _; rw [collapseAux, if_pos hx, ihxs.1]
    · subst hx
      have hxs_head : xs.head? ≠ some '-' := by
        intro hc
        exact hhead '-' hc ⟨rfl, rfl⟩
      constructor
      · show ('-' :: collapseAux true xs) = '-' :: xs
        rw [ihxs.2 hxs_head]
      · intro habs
        exact absurd (rfl : ('-' :: xs).head? = some '-') habs

/-- The head surviving `dropWhile` fails the dropped predicate. -/
theorem head?_dropWhile_not (p : Char → Bool) :
    ∀ l : List Char, ∀ c, ((l.dropWhile p).head? = some c) → p c = false := by
  intro l
  induction l with
  | nil => intro c h; simp at h
  | cons x xs ih =>
    intro c h
    rw [List.dropWhile_cons] at h
    by_cases hx : p x
    · rw [if_pos hx] at h; exact ih c h
    · rw [if_neg hx] at h
      simp only [List.head?_cons, Option.some.injEq] at h
      rw [← h]
      exact Bool.eq_false_iff.mpr hx

/-- Dropping a matching suffix only removes a suffix. -/
theorem dropEndWhile_isPrefix (p : Char → Bool) (l : List Char) :
    dropEndWhile p l <+: l := by
  have hsuf : (l.reverse.dropWhile p) <:+ l.reverse := List.dropWhile_suffix p
  have h := Iff.mpr List.reverse_prefix hsuf
  rwa [List.reverse_reverse] at h

/-- The last element surviving `dropEndWhile` fails the dropped
predicate. -/
theorem getLast?_dropEndWhile_not (p : Char → Bool) (l : List Char) :
    ∀ c, (dropEndWhile p l).getLast? = some c → p c = false := by
  intro c h
  rw [dropEndWhile, List.getLast?_reverse] at h
  exact head?_dropWhile_not p l.reverse c h

/-- A nonempty prefix shares its head with the longer list. -/
theorem head?_of_isPrefix {l₁ l₂ : List Char} (h : l₁ <+: l₂) :
    ∀ c, l₁.head? = some c → l₂.head? = some c := by
  obtain ⟨t, rfl⟩ := h
  intro c hc
  cases l₁ with
  | nil => simp at hc
  | cons x xs => simpa using hc

/-- Function `List.dropWhile` is the identity when the head fails the predicate. -/
theorem dropWhile_eq_self_of_head {p : Char → Bool} {l : List Char}
    (h : ∀ c, l.head? = some c → p c = false) : l.dropWhile p = l := by
  cases l with
  | nil => rfl
  | cons x xs =>
    rw [List.dropWhile_cons, if_neg]
    simp [h x rfl]

/-- Function `dropEndWhile` is the identity when the last element fails the
predicate. -/
theorem dropEndWhile_eq_self_of_getLast {p : Char → Bool} {l : List Char}
    (h : ∀ c, l.getLast? = some c → p c = false) : dropEndWhile p l = l := by
  have hrev : l.reverse.dropWhile p = l.reverse :=
    dropWhile_eq_self_of_head (fun c hc => h c (by rwa [List.head?_reverse] at hc))
  rw [dropEndWhile, hrev, List.reverse_reverse]

/-- Pointwise-identity maps are the identity. -/
theorem map_eq_self_of_mem {f : Char → Char} :
    ∀ l : List Char, (∀ c ∈ l, f c = c) → l.map f = l := by
  intro l
  induction l with
  | nil => intro _; rfl
  | cons x xs ih =>
    intro h
    rw [List.map_cons, h x (List.mem_cons_self x xs),
      ih (fun c hc => h c (List.mem_cons_of_mem x hc))]

/-- ASCII lowering fixes lowercase alphanumerics and the hyphen. -/
theorem pyLowerChar_eq_self {c : Char} (h : isAlnumLower c = true ∨ c = '-') :
    pyLowerChar c = c := by
  rcases h with h | rfl
  · rw [pyLowerChar, if_neg]
    simp only [isAlnumLower, Bool.or_eq_true, Bool.and_eq_true, decide_eq_true_eq] at h
    simp only [Bool.and_eq_true, decide_eq_true_eq, not_and]
    intro hA hZ
    rcases h with ⟨h1, _⟩ | ⟨_, h2⟩
    · exact absurd (le_trans h1 hZ) (by decide)
    · exact absurd (le_trans hA h2) (by decide)
  · decide

/-- Lowercase alphanumerics and the hyphen are not whitespace. -/
theorem isPySpace_false_of {c : Char} (h : isAlnumLower c = true ∨ c = '-') :
    isPySpace c = false := by
  rcases h with h | rfl
  · simp only [isAlnumLower, Bool.or_eq_true, Bool.and_eq_true, decide_eq_true_eq] at h
    have h0 : '0' ≤ c := by
      rcases h with ⟨h1, _⟩ | ⟨h1, _⟩
      · exact le_trans (by decide) h1
      · exact h1
    simp only [isPySpace, Bool.or_eq_false_iff, decide_eq_false_iff_not]
    refine ⟨⟨⟨⟨⟨?_, ?_⟩, ?_⟩, ?_⟩, ?_⟩, ?_⟩ <;>
      · rintro rfl
        revert h0
        decide
  · decide

/-- Function `_slugify` is the identity on lists that already satisfy its output
shape: lowercase alphanumerics and isolated hyphens, no whitespace, no
leading or trailing hyphen, at most 60 characters. -/
theorem slug_fixed {l : List Char}
    (hchars : ∀ c ∈ l, isAlnumLower c = true ∨ c = '-')
    (hch : List.Chain' noDD l)
    (hhead : ∀ c, l.head? = some c → c ≠ '-')
    (hlast : ∀ c, l.getLast? = some c → c ≠ '-')
    (hlen : l.length ≤ 60) :
    slugifyL l = l := by
  have hmap : l.map pyLowerChar = l :=
    map_eq_self_of_mem l (fun c hc => pyLowerChar_eq_self (hchars c hc))
  have hdw_ws : l.dropWhile isPySpace = l :=
    dropWhile_eq_self_of_head (fun c hc =>
      isPySpace_false_of (hchars c (List.mem_of_mem_head? (Option.mem_def.mpr hc))))
  have hde_ws : dropEndWhile isPySpace l = l :=
    dropEndWhile_eq_self_of_getLast (fun c hc =>
      isPySpace_false_of (hchars c (List.mem_of_mem_getLast? (Option.mem_def.mpr hc))))
  have hstrip : pyStripL l = l := by rw [pyStripL, hdw_ws, hde_ws]
  have hcoll : collapseAux false l = l := (collapseAux_eq_self l hchars hch).1
  have hdw_d : l.dropWhile (fun c => c = '-') = l :=
    dropWhile_eq_self_of_head (fun c hc => by simpa using hhead c hc)
  have hde_d : dropEndWhile (fun c => c = '-') l = l :=
    dropEndWhile_eq_self_of_getLast (fun c hc => by simpa using hlast c hc)
  have htake : l.take 60 = l := List.take_of_length_le hlen
  rw [slugifyL, hmap, hstrip, hcoll, hdw_d, hde_d, htake]

/-- Shape of the hyphen-trim-then-truncate tail of `_slugify`, given the
character and adjacency invariants of the regex substitution output. -/
theorem slug_core (m1 : List Char)
    (hchars1 : ∀ c ∈ m1, isAlnumLower c = true ∨ c = '-')
    (hch1 : List.Chain' noDD m1) :
    ((dropEndWhile (fun c => c = '-') (m1.dropWhile (fun c => c = '-'))).take 60).length ≤ 60 ∧
    (∀ c ∈ (dropEndWhile (fun c => c = '-') (m1.dropWhile (fun c => c = '-'))).take 60,
      isAlnumLower c = true ∨ c = '-') ∧
    (∀ c, ((dropEndWhile (fun c => c = '-') (m1.dropWhile (fun c => c = '-'))).take 60).head? =
      some c → c ≠ '-') ∧
    (((dropEndWhile (fun c => c = '-') (m1.dropWhile (fun c => c = '-'))).take 60).getLast? =
      some '-' →
      ((dropEndWhile (fun c => c = '-') (m1.dropWhile (fun c => c = '-'))).take 60).length = 60) ∧
    (((dropEndWhile (fun c => c = '-') (m1.dropWhile (fun c => c = '-'))).take 60).getLast? ≠
      some '-' →
      slugifyL ((dropEndWhile (fun c => c = '-') (m1.dropWhile (fun c => c = '-'))).take 60) =
        (dropEndWhile (fun c => c = '-') (m1.dropWhile (fun c => c = '-'))).take 60) := by
  set m2 := m1.dropWhile (fun c => c = '-') with hm2
  set m3 := dropEndWhile (fun c => c = '-') m2 with hm3
  set out := m3.take 60 with hout
  have hsuf2 : m2 <:+ m1 := List.dropWhile_suffix _
  have hpre3 : m3 <+: m2 := dropEndWhile_isPrefix _ m2
  have hpre4 : out <+: m3 := List.take_prefix 60 m3
  have hpre_out2 : out <+: m2 := hpre4.trans hpre3
  have hchars : ∀ c ∈ out, isAlnumLower c = true ∨ c = '-' := fun c hc =>
    hchars1 c (hsuf2.sublist.subset (hpre_out2.sublist.subset hc))
  have hch_out : List.Chain' noDD out :=
     List.Chain'.prefix ( List.Chain'.infix hch1 ( List.IsSuffix.isInfix hsuf2)) hpre_out2
  have hhead_out : ∀ c, out.head? = some c → c ≠ '-' := by
    intro c hc
    have h2 : m2.head? = some c := head?_of_isPrefix hpre_out2 c hc
    have h3 := head?_dropWhile_not (fun c => c = '-') m1 c h2
    simpa using h3
  have hlast3 : ∀ c, m3.getLast? = some c → c ≠ '-' := by
    intro c hc
    have h3 := getLast?_dropEndWhile_not (fun c => c = '-') m2 c hc
    simpa using h3
  have hlen_out : out.length ≤ 60 := by
    rw [hout, List.length_take]
    exact min_le_left _ _
  refine ⟨hlen_out, hchars, hhead_out, ?_, ?_⟩
  · intro hdash
    by_cases hle : m3.length ≤ 60
    · have heq : out = m3 := by rw [hout, List.take_of_length_le hle]
      rw [heq] at hdash
      exact absurd rfl (hlast3 '-' hdash)
    · rw [hout, List.length_take]
      omega
  · intro hne
    have hlast_out : ∀ c, out.getLast? = some c → c ≠ '-' := by
      intro c hc heq
      rw [heq] at hc
      exact hne hc
    exact slug_fixed hchars hch_out hhead_out hlast_out hlen_out

/-- The `_slugify` pipeline invariants, stated on its list form. -/
theorem slugifyL_facts (l : List Char) :
    (slugifyL l).length ≤ 60 ∧
    (∀ c ∈ slugifyL l, isAlnumLower c = true ∨ c = '-') ∧
    (∀ c, (slugifyL l).head? = some c → c ≠ '-') ∧
    ((slugifyL l).getLast? = some '-' → (slugifyL l).length = 60) ∧
    ((slugifyL l).getLast? ≠ some '-' → slugifyL (slugifyL l) = slugifyL l) :=
  slug_core (collapseAux false (pyStripL (l.map pyLowerChar)))
    (fun _ hc => mem_collapseAux false _ hc)
    (chain'_collapseAux _).1

/-- Claim C2 (amended): every slug has length at most 60, contains only
lowercase alphanumerics and hyphens, and never starts with a hyphen; a
trailing hyphen is possible, but only when the 60-character truncation
cut the slug (length exactly 60), because the code truncates after
trimming hyphens; `_slugify` is idempotent on every slug without a
trailing hyphen; and `_slugify "Senior Engineer!!" = "senior-engineer"`. -/
theorem c2_slug_bounded_idempotent (s : String) :
    (_slugify s).data.length ≤ 60 ∧
    (∀ c ∈ (_slugify s).data, isAlnumLower c = true ∨ c = '-') ∧
    (∀ c, (_slugify s).data.head? = some c → c ≠ '-') ∧
    ((_slugify s).data.getLast? = some '-' → (_slugify s).data.length = 60) ∧
    ((_slugify s).data.getLast? ≠ some '-' → _slugify (_slugify s) = _slugify s) ∧
    _slugify "Senior Engineer!!" = "senior-engineer" := by
  have h := slugifyL_facts s.data
  have hdata : (_slugify s).data = slugifyL s.data := rfl
  refine ⟨?_, ?_, ?_, ?_, ?_, by decide⟩
  · rw [hdata]; exact h.1
  · rw [hdata]; exact h.2.1
  · rw [hdata]; exact h.2.2.1
  · rw [hdata]; exact h.2.2.2.1
  · rw [hdata]
    intro hne
    calc _slugify (_slugify s) = ⟨slugifyL (slugifyL s.data)⟩ := rfl
      _ = ⟨slugifyL s.data⟩ := by rw [h.2.2.2.2 hne]
      _ = _slugify s := rfl

/-- Witness for C2 (amended) at concrete inputs: "senior-engineer" has
no trailing hyphen and re-slugifies to itself; `c2Bad` has a trailing
hyphen and its slug length is exactly 60; the head of the
"Senior Engineer!!" slug is the non-hyphen letter s. -/
theorem c2_slug_bounded_idempotent_witness :
    _slugify (_slugify "Senior Engineer!!") = _slugify "Senior Engineer!!" ∧
    (_slugify c2Bad).data.length = 60 ∧
    ('s' : Char) ≠ '-' :=
  ⟨(c2_slug_bounded_idempotent "Senior Engineer!!").2.2.2.2.1 (by decide),
   (c2_slug_bounded_idempotent c2Bad).2.2.2.1 (by decide),
   (c2_slug_bounded_idempotent "Senior Engineer!!").2.2.1 's' (by decide)⟩

/-- The GCS bucket, as an association list from blob names to the
parsed JSON content of each blob (the code uploads `json.dumps(...)`
and downloads with `json.loads(...)`, so contents are modelled already
parsed). -/
abbrev Store := List (String × J)

/-- Fetch a blob (`bucket.blob(name)` + existence/content). -/
def storeLookup (st : Store) (name : String) : Option J :=
  st.lookup name

/-- Delete a blob (`blob.delete()`). -/
def storeErase (st : Store) (name : String) : Store :=
  st.filter (fun p => p.1 != name)

/-- Upload a blob with overwrite semantics
(`blob.upload_from_string(...)`). -/
def storeUpsert (st : Store) (name : String) (v : J) : Store :=
  (name, v) :: storeErase st name

/-- Request body for POST /api/save-role (and save-draft): `title?` and
`savedBy?` are the optional string fields read with
`data.get("title", "untitled")` / `data.get("savedBy", "unknown")`; the
remaining fields hold `data.get(key)` (so `J.null` when absent). -/
structure SaveBody where
  title? : Option String
  savedBy? : Option String
  currentStep : J
  roleData : J
  experienceLevel : J
  step2Mode : J
  generatedSections : J
  compensation : J
  selectedBenefits : J

/-- Expression `data.get("savedBy", "unknown").split("@")[0].replace(".", "-")`
(src/app.py line 567). -/
def sanitizeSavedBy (s : String) : String :=
  ⟨(s.data.takeWhile (fun c => c ≠ '@')).map (fun c => if c = '.' then '-' else c)⟩

/-- Handler for POST /api/save-role (src/app.py lines 559-597): upload
the role under `saved/<slug>-<savedBy>.json`, then delete the draft with
the same derived name if it exists, and answer success with the blob
name.  `now` is `datetime.now(CHICAGO_TZ).isoformat()`. -/
def save_role (gcsAvailable : Bool) (st : Store) (data : SaveBody) (now : String) :
    HttpResp × Store :=
  if !gcsAvailable then
    (⟨503, J.obj [("success", J.bool false), ("error", J.str "GCS not available")]⟩, st)
  else
    let title := data.title?.getD "untitled"
    let saved_by := sanitizeSavedBy (data.savedBy?.getD "unknown")
    let blob_name := "saved/" ++ _slugify title ++ "-" ++ saved_by ++ ".json"
    let role := J.obj [
      ("title", J.str title),
      ("roleData", data.roleData),
      ("experienceLevel", data.experienceLevel),
      ("generatedSections", data.generatedSections),
      ("compensation", data.compensation),
      ("selectedBenefits", data.selectedBenefits),
      ("lastSavedBy", J.str (data.savedBy?.getD "unknown")),
      ("lastSavedAt", J.str now)]
    let st1 := storeUpsert st blob_name role
    let draft_name := "drafts/" ++ _slugify title ++ "-" ++ saved_by ++ ".json"
    let st2 := if (storeLookup st1 draft_name).isSome then storeErase st1 draft_name else st1
    (⟨200, J.obj [("success", J.bool true), ("file", J.str blob_name)]⟩, st2)

/-- Python `dict.get(key)` on a parsed JSON object. -/
def jGet (j : J) (key : String) : Option J :=
  match j with
  | J.obj fields => fields.lookup key
  | _ => none

/-- The summary record built per draft blob by `list_drafts`
(src/app.py lines 503-509). -/
structure DraftSummary where
  title : J
  currentStep : J
  lastSavedBy : J
  lastSavedAt : J
  filename : String

/-- Projection of one draft blob with dict content to its summary.
Note `dict.get` defaults apply only when the key is absent: a field
present with value null stays null in the summary. -/
def draftSummaryOf (name : String) (content : J) : DraftSummary :=
  ⟨(jGet content "title").getD (J.str "Untitled"),
   (jGet content "currentStep").getD J.null,
   (jGet content "lastSavedBy").getD J.null,
   (jGet content "lastSavedAt").getD J.null,
   name⟩

/-- Projection of one draft blob as executed by the loop body of
`list_drafts`: on content that is not a JSON object, `data.get` raises
`AttributeError` (modelled as `none`), which the bare `except` of the
endpoint later turns into an empty listing. -/
def draftSummaryOf? (name : String) (content : J) : Option DraftSummary :=
  match content with
  | J.obj _ => some (draftSummaryOf name content)
  | _ => none

/-- Sequencing of the per-blob projections: the loop raises (aborting
the whole listing) as soon as one blob's projection raises. -/
def optionList {α : Type} : List (Option α) → Option (List α)
  | [] => some []
  | none :: _ => none
  | some a :: rest => (optionList rest).map (fun l => a :: l)

/-- Membership test of `bucket.list_blobs(prefix=...)`. -/
def strStartsWith (s pre : String) : Bool :=
  pre.data.isPrefixOf s.data

/-- Python `str.endswith`. -/
def strEndsWith (s post : String) : Bool :=
  post.data.reverse.isPrefixOf s.data.reverse

/-- Blobs under prefix "drafts/" ending in ".json", projected to
summaries in enumeration order (src/app.py lines 496-509), on the
domain where no projection raises.  Whatever `list_drafts` returns
(the sorted summaries, or the empty list of the `except` path) is a
subset of these entries. -/
def listDraftEntries (st : Store) : List DraftSummary :=
  (st.filter (fun p => strStartsWith p.1 "drafts/" && strEndsWith p.1 ".json")).map
    (fun p => draftSummaryOf p.1 p.2)

/-- The draft-summary loop of src/app.py lines 499-509 as executed:
`none` when some blob's projection raises. -/
def listDraftEntries? (st : Store) : Option (List DraftSummary) :=
  optionList ((st.filter
    (fun p => strStartsWith p.1 "drafts/" && strEndsWith p.1 ".json")).map
      (fun p => draftSummaryOf? p.1 p.2))

/-- The sort key `d.get("lastSavedAt", "")` of src/app.py line 510, on
the domain where the stored timestamp is a string. -/
def draftSortKey (d : DraftSummary) : String :=
  match d.lastSavedAt with
  | J.str s => s
  | _ => ""

/-- A draft summary as the JSON object returned to the client. -/
def draftSummaryJ (d : DraftSummary) : J :=
  J.obj [("title", d.title), ("currentStep", d.currentStep),
    ("lastSavedBy", d.lastSavedBy), ("lastSavedAt", d.lastSavedAt),
    ("filename", J.str d.filename)]

/-- Handler for GET /api/list-drafts (src/app.py lines 490-514):
summaries sorted by last-saved timestamp descending (Python
`list.sort(key=..., reverse=True)` is the stable descending sort,
embedded as `mergeSort` with the reversed comparison); an exception
inside the try block degrades to the empty listing. -/
def list_drafts (gcsAvailable : Bool) (st : Store) : HttpResp :=
  if !gcsAvailable then ⟨200, J.obj [("success", J.bool true), ("drafts", J.arr [])]⟩
  else match listDraftEntries? st with
  | none => ⟨200, J.obj [("success", J.bool true), ("drafts", J.arr [])]⟩
  | some entries => ⟨200, J.obj [("success", J.bool true),
      ("drafts", J.arr ((entries.mergeSort
        (fun a b => draftSortKey b ≤ draftSortKey a)).map draftSummaryJ))]⟩

/-- The summary record built per saved-role blob by `list_saved_roles`
(src/app.py lines 613-620). -/
structure RoleSummary where
  title : J
  department : J
  lastSavedBy : J
  lastSavedAt : J
  filename : String

/-- Projection of one saved-role blob as executed by the loop body of
`list_saved_roles` (src/app.py lines 612-620), when it does not raise.
`data.get` requires the parsed content to be a dict, and
Python `rd.get("department", "")` requires `rd` to be a dict, where
`rd = data.get("roleData", dict())`; the `.get` default applies only
when the key is absent, so a role stored with a null (or any other
non-object) `roleData` raises `AttributeError` (modelled as `none`),
which the bare `except` of the endpoint turns into an empty listing. -/
def roleSummaryOf? (name : String) (content : J) : Option RoleSummary :=
  match content with
  | J.obj _ =>
    match (jGet content "roleData").getD (J.obj []) with
    | J.obj rdFields => some
        ⟨(jGet content "title").getD (J.str "Untitled"),
         (rdFields.lookup "department").getD (J.str ""),
         (jGet content "lastSavedBy").getD J.null,
         (jGet content "lastSavedAt").getD J.null,
         name⟩
    | _ => none
  | _ => none

/-- The role-summary loop of src/app.py lines 609-620 as executed
(blobs under prefix "saved/" ending in ".json", in enumeration order):
`none` when some blob's projection raises. -/
def listRoleEntries? (st : Store) : Option (List RoleSummary) :=
  optionList ((st.filter
    (fun p => strStartsWith p.1 "saved/" && strEndsWith p.1 ".json")).map
      (fun p => roleSummaryOf? p.1 p.2))

/-- The sort key of src/app.py line 621. -/
def roleSortKey (r : RoleSummary) : String :=
  match r.lastSavedAt with
  | J.str s => s
  | _ => ""

/-- A role summary as the JSON object returned to the client. -/
def roleSummaryJ (r : RoleSummary) : J :=
  J.obj [("title", r.title), ("department", r.department),
    ("lastSavedBy", r.lastSavedBy), ("lastSavedAt", r.lastSavedAt),
    ("filename", J.str r.filename)]

/-- Handler for GET /api/list-saved-roles (src/app.py lines 600-625);
an exception inside the try block degrades to the empty listing. -/
def list_saved_roles (gcsAvailable : Bool) (st : Store) : HttpResp :=
  if !gcsAvailable then ⟨200, J.obj [("success", J.bool true), ("roles", J.arr [])]⟩
  else match listRoleEntries? st with
  | none => ⟨200, J.obj [("success", J.bool true), ("roles", J.arr [])]⟩
  | some entries => ⟨200, J.obj [("success", J.bool true),
      ("roles", J.arr ((entries.mergeSort
        (fun a b => roleSortKey b ≤ roleSortKey a)).map roleSummaryJ))]⟩

/-- Handler for GET /api/load-draft (src/app.py lines 517-532).  A
missing blob makes `blob.download_as_text()` raise NotFound, which the
bare `except` maps to a 500 with `str(e)`; `errMsg` gives that
exception text for a blob name. -/
def load_draft (gcsAvailable : Bool) (errMsg : String → String) (st : Store)
    (file? : Option String) : HttpResp :=
  if !gcsAvailable then
    ⟨503, J.obj [("success", J.bool false), ("error", J.str "GCS not available")]⟩
  else match file? with
  | none => ⟨400, J.obj [("success", J.bool false), ("error", J.str "No file specified")]⟩
  | some filename =>
    match storeLookup st filename with
    | some data => ⟨200, J.obj [("success", J.bool true), ("draft", data)]⟩
    | none => ⟨500, J.obj [("success", J.bool false), ("error", J.str (errMsg filename))]⟩

/-- Handler for GET /api/load-saved-role (src/app.py lines 628-645):
unlike `load_draft`, it checks `blob.exists()` and answers 404
"Not found" on a missing blob. -/
def load_saved_role (gcsAvailable : Bool) (st : Store) (file? : Option String) : HttpResp :=
  if !gcsAvailable then
    ⟨503, J.obj [("success", J.bool false), ("error", J.str "GCS not available")]⟩
  else match file? with
  | none => ⟨400, J.obj [("success", J.bool false), ("error", J.str "No file specified")]⟩
  | some filename =>
    match storeLookup st filename with
    | none => ⟨404, J.obj [("success", J.bool false), ("error", J.str "Not found")]⟩
    | some data => ⟨200, J.obj [("success", J.bool true), ("role", data)]⟩

/-- Handler for DELETE /api/delete-draft (src/app.py lines 535-552).
`deleteRaises` models the store raising during the guarded
existence-check/delete; the bare `except` then still answers success
(line 552), leaving the store unchanged. -/
def delete_draft (gcsAvailable deleteRaises : Bool) (st : Store)
    (file? : Option String) : HttpResp × Store :=
  if !gcsAvailable then (⟨200, J.obj [("success", J.bool true)]⟩, st)
  else match file? with
  | none => (⟨400, J.obj [("success", J.bool false), ("error", J.str "No file specified")]⟩, st)
  | some filename =>
    if (storeLookup st filename).isSome then
      if deleteRaises then (⟨200, J.obj [("success", J.bool true)]⟩, st)
      else (⟨200, J.obj [("success", J.bool true)]⟩, storeErase st filename)
    else (⟨200, J.obj [("success", J.bool true)]⟩, st)

/-- Handler for DELETE /api/delete-saved-role (src/app.py
lines 648-665), same logic as `delete_draft` for the saved prefix. -/
def delete_saved_role (gcsAvailable deleteRaises : Bool) (st : Store)
    (file? : Option String) : HttpResp × Store :=
  if !gcsAvailable then (⟨200, J.obj [("success", J.bool true)]⟩, st)
  else match file? with
  | none => (⟨400, J.obj [("success", J.bool false), ("error", J.str "No file specified")]⟩, st)
  | some filename =>
    if (storeLookup st filename).isSome then
      if deleteRaises then (⟨200, J.obj [("success", J.bool true)]⟩, st)
      else (⟨200, J.obj [("success", J.bool true)]⟩, storeErase st filename)
    else (⟨200, J.obj [("success", J.bool true)]⟩, st)

/-- After erasing a blob name, looking it up yields nothing. -/
theorem storeLookup_erase (st : Store) (name : String) :
    storeLookup (storeErase st name) name = none := by
  induction st with
  | nil => rfl
  | cons p st ih =>
    obtain ⟨k, v⟩ := p
    rw [storeErase, List.filter_cons]
    by_cases hk : k = name
    · rw [if_neg (by simp [hk])]
      exact ih
    · rw [if_pos (by simp [hk])]
      have hbeq : (name == k) = false := by
        simp only [beq_eq_false_iff_ne, ne_eq]
        exact fun h => hk h.symm
      rw [storeLookup, List.lookup_cons, hbeq]
      exact ih

/-- A blob name absent from the store never appears as a listed draft
filename. -/
theorem not_listed_of_lookup_none {st : Store} {name : String}
    (h : storeLookup st name = none) :
    ∀ d ∈ listDraftEntries st, d.filename ≠ name := by
  intro d hd
  rw [listDraftEntries] at hd
  obtain ⟨p, hp, rfl⟩ := List.mem_map.mp hd
  have hmem : p ∈ st := List.mem_of_mem_filter hp
  have hne := List.lookup_eq_none_iff.mp h p hmem
  show p.1 ≠ name
  intro heq
  rw [heq] at hne
  simp at hne

/-- Claim C6: for every save-role call (with the store available), the
draft blob `drafts/<slug(title)>-<sanitized savedBy>.json` is absent
from the store afterwards — deleted if it existed, a no-op otherwise —
the save succeeds with status 200 and the saved blob name either way,
and no listed draft carries that filename any more. -/
theorem c6_save_role_deletes_draft (st : Store) (data : SaveBody) (now : String) :
    storeLookup (save_role true st data now).2
      ("drafts/" ++ _slugify (data.title?.getD "untitled") ++ "-" ++
        sanitizeSavedBy (data.savedBy?.getD "unknown") ++ ".json") = none ∧
    (save_role true st data now).1 = ⟨200, J.obj [("success", J.bool true),
      ("file", J.str ("saved/" ++ _slugify (data.title?.getD "untitled") ++ "-" ++
        sanitizeSavedBy (data.savedBy?.getD "unknown") ++ ".json"))]⟩ ∧
    ∀ d ∈ (listDraftEntries (save_role true st data now).2).mergeSort
        (fun a b => draftSortKey b ≤ draftSortKey a),
      d.filename ≠ "drafts/" ++ _slugify (data.title?.getD "untitled") ++ "-" ++
        sanitizeSavedBy (data.savedBy?.getD "unknown") ++ ".json" := by
  have hlook : storeLookup (save_role true st data now).2
      ("drafts/" ++ _slugify (data.title?.getD "untitled") ++ "-" ++
        sanitizeSavedBy (data.savedBy?.getD "unknown") ++ ".json") = none := by
    show storeLookup
      (if (storeLookup
            (storeUpsert st ("saved/" ++ _slugify (data.title?.getD "untitled") ++ "-" ++
              sanitizeSavedBy (data.savedBy?.getD "unknown") ++ ".json") _)
            ("drafts/" ++ _slugify (data.title?.getD "untitled") ++ "-" ++
              sanitizeSavedBy (data.savedBy?.getD "unknown") ++ ".json")).isSome
        then storeErase _ _ else _) _ = none
    split
    · exact storeLookup_erase _ _
    · rename_i hnone
      rwa [Option.not_isSome_iff_eq_none] at hnone
  exact ⟨hlook, rfl, fun d hd =>
    not_listed_of_lookup_none hlook d ((List.mergeSort_perm _ _).mem_iff.mp hd)⟩

/-- Claim C7: with the store available and a file parameter supplied,
delete-draft and delete-saved-role always answer 200 with success true —
whether the blob exists, does not exist, or the store raises during the
deletion attempt. -/
theorem c7_delete_swallows_failures (deleteRaises : Bool) (st : Store) (filename : String) :
    (delete_draft true deleteRaises st (some filename)).1 =
      ⟨200, J.obj [("success", J.bool true)]⟩ ∧
    (delete_saved_role true deleteRaises st (some filename)).1 =
      ⟨200, J.obj [("success", J.bool true)]⟩ := by
  by_cases h : (storeLookup st filename).isSome <;>
    by_cases hr : deleteRaises <;>
      simp [delete_draft, delete_saved_role, h, hr]

/-- Claim C9: when the referenced blob is absent, load-saved-role
answers 404 with "Not found", but load-draft answers 500 with the
underlying store exception text (the `NotFound` raised by
`download_as_text` caught by the generic handler), not a 404. -/
theorem c9_load_not_found_asymmetry (errMsg : String → String) (st : Store)
    (filename : String) (h : storeLookup st filename = none) :
    load_draft true errMsg st (some filename) =
      ⟨500, J.obj [("success", J.bool false), ("error", J.str (errMsg filename))]⟩ ∧
    load_saved_role true st (some filename) =
      ⟨404, J.obj [("success", J.bool false), ("error", J.str "Not found")]⟩ := by
  constructor
  · simp [load_draft, h]
  · simp [load_saved_role, h]

/-- Witness for C9: loading a missing blob from the empty store. -/
theorem c9_load_not_found_asymmetry_witness :
    load_draft true (fun _ => "boom") [] (some "drafts/x.json") =
      ⟨500, J.obj [("success", J.bool false), ("error", J.str "boom")]⟩ ∧
    load_saved_role true [] (some "drafts/x.json") =
      ⟨404, J.obj [("success", J.bool false), ("error", J.str "Not found")]⟩ :=
  c9_load_not_found_asymmetry (fun _ => "boom") [] "drafts/x.json" rfl

/-- Claim C10: with the store client unavailable, delete-draft and
delete-saved-role answer success 200 for every request — even with no
file parameter — while the same missing-parameter request with the
store available is a 400 error. -/
theorem c10_delete_unavailable_skips_validation (deleteRaises : Bool) (st : Store)
    (file? : Option String) :
    (delete_draft false deleteRaises st file?).1 =
      ⟨200, J.obj [("success", J.bool true)]⟩ ∧
    (delete_saved_role false deleteRaises st file?).1 =
      ⟨200, J.obj [("success", J.bool true)]⟩ ∧
    (delete_draft true deleteRaises st none).1 =
      ⟨400, J.obj [("success", J.bool false), ("error", J.str "No file specified")]⟩ ∧
    (delete_saved_role true deleteRaises st none).1 =
      ⟨400, J.obj [("success", J.bool false), ("error", J.str "No file specified")]⟩ :=
  ⟨rfl, rfl, rfl, rfl⟩

/-- Whether a JSON value is a string (the domain on which Python can
compare the sort keys without a TypeError). -/
def isStrJ : J → Bool
  | J.str _ => true
  | _ => false

/-- Claim C8: on every store where the listing loop of each endpoint
completes without raising (`listDraftEntries? st = some ds`,
`listRoleEntries? st = some rs`) and the stored last-saved timestamps
are strings (so Python can compare the sort keys), both list endpoints
return the summaries sorted by that timestamp descending under
lexicographic string comparison (`Pairwise` ordering), as a permutation
of the projected entries, and the endpoint responses embed exactly
these sorted lists. -/
theorem c8_lists_sorted_desc (st : Store)
    (ds : List DraftSummary) (rs : List RoleSummary)
    (hds : listDraftEntries? st = some ds)
    (hrs : listRoleEntries? st = some rs)
    (hd : ∀ d ∈ ds, isStrJ d.lastSavedAt = true)
    (hr : ∀ r ∈ rs, isStrJ r.lastSavedAt = true) :
    List.Pairwise (fun a b => draftSortKey b ≤ draftSortKey a)
      (ds.mergeSort (fun a b => draftSortKey b ≤ draftSortKey a)) ∧
    (ds.mergeSort (fun a b => draftSortKey b ≤ draftSortKey a)).Perm ds ∧
    List.Pairwise (fun a b => roleSortKey b ≤ roleSortKey a)
      (rs.mergeSort (fun a b => roleSortKey b ≤ roleSortKey a)) ∧
    (rs.mergeSort (fun a b => roleSortKey b ≤ roleSortKey a)).Perm rs ∧
    list_drafts true st = ⟨200, J.obj [("success", J.bool true),
      ("drafts", J.arr ((ds.mergeSort
        (fun a b => draftSortKey b ≤ draftSortKey a)).map draftSummaryJ))]⟩ ∧
    list_saved_roles true st = ⟨200, J.obj [("success", J.bool true),
      ("roles", J.arr ((rs.mergeSort
        (fun a b => roleSortKey b ≤ roleSortKey a)).map roleSummaryJ))]⟩ := by
  have htransD : ∀ a b c : DraftSummary,
      (fun a b => decide (draftSortKey b ≤ draftSortKey a)) a b = true →
      (fun a b => decide (draftSortKey b ≤ draftSortKey a)) b c = true →
      (fun a b => decide (draftSortKey b ≤ draftSortKey a)) a c = true := by
    intro a b c hab hbc
    simp only [decide_eq_true_eq] at *
    exact le_trans hbc hab
  have htotalD : ∀ a b : DraftSummary,
      ((fun a b => decide (draftSortKey b ≤ draftSortKey a)) a b ||
       (fun a b => decide (draftSortKey b ≤ draftSortKey a)) b a) = true := by
    intro a b
    simp only [Bool.or_eq_true, decide_eq_true_eq]
    exact le_total _ _
  have htransR : ∀ a b c : RoleSummary,
      (fun a b => decide (roleSortKey b ≤ roleSortKey a)) a b = true →
      (fun a b => decide (roleSortKey b ≤ roleSortKey a)) b c = true →
      (fun a b => decide (roleSortKey b ≤ roleSortKey a)) a c = true := by
    intro a b c hab hbc
    simp only [decide_eq_true_eq] at *
    exact le_trans hbc hab
  have htotalR : ∀ a b : RoleSummary,
      ((fun a b => decide (roleSortKey b ≤ roleSortKey a)) a b ||
       (fun a b => decide (roleSortKey b ≤ roleSortKey a)) b a) = true := by
    intro a b
    simp only [Bool.or_eq_true, decide_eq_true_eq]
    exact le_total _ _
  have hsortD := List.sorted_mergeSort htransD htotalD ds
  have hsortR := List.sorted_mergeSort htransR htotalR rs
  refine ⟨?_, List.mergeSort_perm _ _, ?_, List.mergeSort_perm _ _, ?_, ?_⟩
  · exact List.Pairwise.imp (fun h => of_decide_eq_true h) hsortD
  · exact List.Pairwise.imp (fun h => of_decide_eq_true h) hsortR
  · simp [list_drafts, hds]
  · simp [list_saved_roles, hrs]

/-- Concrete store for the C8 witness: three drafts saved at increasing
timestamps and one saved role. -/
def c8Store : Store :=
  [("drafts/a-alice.json", J.obj [("title", J.str "A"),
      ("lastSavedAt", J.str "2024-01-01T10:00:00-06:00")]),
   ("drafts/b-bob.json", J.obj [("title", J.str "B"),
      ("lastSavedAt", J.str "2024-01-02T10:00:00-06:00")]),
   ("drafts/c-carol.json", J.obj [("title", J.str "C"),
      ("lastSavedAt", J.str "2024-01-03T10:00:00-06:00")]),
   ("saved/r-dave.json", J.obj [("title", J.str "R"),
      ("roleData", J.obj [("department", J.str "Sales")]),
      ("lastSavedAt", J.str "2024-01-05T10:00:00-06:00")])]

/-- Draft summaries projected from `c8Store` by the listing loop. -/
def c8Drafts : List DraftSummary :=
  [⟨J.str "A", J.null, J.null, J.str "2024-01-01T10:00:00-06:00", "drafts/a-alice.json"⟩,
   ⟨J.str "B", J.null, J.null, J.str "2024-01-02T10:00:00-06:00", "drafts/b-bob.json"⟩,
   ⟨J.str "C", J.null, J.null, J.str "2024-01-03T10:00:00-06:00", "drafts/c-carol.json"⟩]

/-- Role summaries projected from `c8Store` by the listing loop. -/
def c8Roles : List RoleSummary :=
  [⟨J.str "R", J.str "Sales", J.null, J.str "2024-01-05T10:00:00-06:00", "saved/r-dave.json"⟩]

/-- Witness for C8 on `c8Store`: both listing loops succeed there, the
timestamps are strings, and its three drafts saved at t1 < t2 < t3 come
back sorted descending. -/
theorem c8_lists_sorted_desc_witness :
    List.Pairwise (fun a b => draftSortKey b ≤ draftSortKey a)
      (c8Drafts.mergeSort (fun a b => draftSortKey b ≤ draftSortKey a)) ∧
    List.Pairwise (fun a b => roleSortKey b ≤ roleSortKey a)
      (c8Roles.mergeSort (fun a b => roleSortKey b ≤ roleSortKey a)) :=
  ⟨(c8_lists_sorted_desc c8Store c8Drafts c8Roles rfl rfl (by decide) (by decide)).1,
   (c8_lists_sorted_desc c8Store c8Drafts c8Roles rfl rfl (by decide) (by decide)).2.2.1⟩
